import Mathlib

/-!
Verification of the fleet-management application's cost-aggregation and
store operations (src/app.py, src/app2.py, src/app3.py).

Conventions of the embedding:
* SQLite `REAL` values (mileage, costs) are modelled as rationals `ℚ`;
  the spec and claims treat them as exact numbers.
* Python `datetime.date` values are modelled as (year, month, day) triples
  of naturals, compared lexicographically, exactly the order Python uses.
* `dateutil.relativedelta(months=1)` adds one calendar month and clamps the
  day to the length of the target month; `addMonth` reproduces this.
* Pandas dataframes become lists of records; `sort_values` over a date
  column becomes a stable insertion sort by the lexicographic date order;
  boolean-mask filtering becomes `List.filter`; `.sum()` becomes `List.sum`.
* SQL `SELECT SUM(col) ... WHERE truck_id=?` returns NULL on an empty row
  set, modelled as `Option ℚ`; Python's `x or 0.0` idiom is modelled by
  `pyOrZero` (it maps both `None` and a zero sum to `0.0`).
-/

/-- Calendar dates as stored by the application (`datetime.date`):
year, month, day, compared lexicographically. -/
structure Date where
  year : Nat
  month : Nat
  day : Nat
deriving DecidableEq, Repr

/-- `a <= b` on Python dates: lexicographic on (year, month, day). -/
def dateLE (a b : Date) : Bool :=
  a.year < b.year ||
    (a.year = b.year &&
      (a.month < b.month || (a.month = b.month && a.day ≤ b.day)))

/-- `a < b` on Python dates: lexicographic on (year, month, day). -/
def dateLT (a b : Date) : Bool :=
  a.year < b.year ||
    (a.year = b.year &&
      (a.month < b.month || (a.month = b.month && a.day < b.day)))

/-- Gregorian leap-year test, as `dateutil`/`datetime` use it. -/
def isLeap (y : Nat) : Bool :=
  y % 4 = 0 && (y % 100 ≠ 0 || y % 400 = 0)

/-- Number of days in a given month of a given year. -/
def daysInMonth (y m : Nat) : Nat :=
  if m = 2 then (if isLeap y then 29 else 28)
  else if m = 4 || m = 6 || m = 9 || m = 11 then 30
  else 31

/-- `d + relativedelta(months=1)`: advance one calendar month, clamping the
day to the length of the target month (e.g. Jan 31 ↦ Feb 28/29). -/
def addMonth (d : Date) : Date :=
  let y := if d.month = 12 then d.year + 1 else d.year
  let m := if d.month = 12 then 1 else d.month + 1
  ⟨y, m, min d.day (daysInMonth y m)⟩

/-- The half-open month-interval test used on both aggregation paths
(src/app3.py lines 406 and 452): `month_start <= date < month_start + 1 month`. -/
def dateInMonth (monthStart d : Date) : Bool :=
  dateLE monthStart d && dateLT d (addMonth monthStart)

/-- A row of `monthly_mileages` for one vehicle (src/app3.py lines 57-66). -/
structure MonthlyMileageEntry where
  month_date : Date
  starting_mileage : ℚ
  ending_mileage : ℚ
deriving DecidableEq, Repr

/-- A row of `maintenance_logs` for one vehicle (src/app3.py lines 39-55).
The text metadata columns are kept as strings; `next_service_due` is
nullable in the UI. -/
structure MaintenanceLogEntry where
  date : Date
  description : String
  odometer : ℚ
  service_provider : String
  mechanic : String
  part_no : String
  next_service_due : Option Date
  material_cost : ℚ
  labor_cost : ℚ
  warranty : String
  total_cost : ℚ
deriving DecidableEq, Repr

/-- One row of the "Cost Per Mile Summary" table
(src/app3.py lines 400-406 and 414-424). -/
structure SummaryRow where
  month_date : Date
  starting_mileage : ℚ
  ending_mileage : ℚ
  monthly_mileage : ℚ
  monthly_cost : ℚ
deriving DecidableEq, Repr

/-- Ordering of mileage entries by month start date, the sort key of
`monthly_df.sort_values('month_date')` (src/app3.py line 400). -/
def mileageLE (a b : MonthlyMileageEntry) : Prop :=
  dateLE a.month_date b.month_date = true

instance : DecidableRel mileageLE :=
  fun a b => instDecidableEqBool (dateLE a.month_date b.month_date) true

/-- `monthly_df.sort_values('month_date')` (src/app3.py line 400):
stable sort of the mileage entries by month start date ascending. -/
def sortMileage (ms : List MonthlyMileageEntry) : List MonthlyMileageEntry :=
  List.insertionSort mileageLE ms

/-- src/app3.py line 406: the cost attributed to the month starting at
`monthStart` is the sum of `total_cost` over the log entries whose date
satisfies `month_start <= date < month_start + 1 month`. -/
def monthCost (monthStart : Date) (logs : List MaintenanceLogEntry) : ℚ :=
  ((logs.filter (fun l => dateInMonth monthStart l.date)).map
    (fun l => l.total_cost)).sum

/-- `computeMonthlySummary` (src/app3.py lines 400-406): sort the mileage
entries by month ascending, then for each entry emit a row with
`monthly_mileage = ending - starting` and `monthly_cost` the interval sum. -/
def computeMonthlySummary (ms : List MonthlyMileageEntry)
    (logs : List MaintenanceLogEntry) : List SummaryRow :=
  (sortMileage ms).map (fun m =>
    { month_date := m.month_date
      starting_mileage := m.starting_mileage
      ending_mileage := m.ending_mileage
      monthly_mileage := m.ending_mileage - m.starting_mileage
      monthly_cost := monthCost m.month_date logs })

/-- The fleet-level metrics of the detail view. -/
structure AnnualMetrics where
  annual_mileage : ℚ
  total_cost : ℚ
  cost_per_mile : ℚ
deriving DecidableEq, Repr

/-- `computeAnnualMetrics` (src/app3.py lines 407-409):
`annual_mileage = sum(monthly_mileage)`, `total_costs = sum(monthly_cost)`,
`cost_per_mile = total_costs / annual_mileage if annual_mileage > 0 else 0.0`. -/
def computeAnnualMetrics (s : List SummaryRow) : AnnualMetrics :=
  let annual_mileage := (s.map (fun r => r.monthly_mileage)).sum
  let total_costs := (s.map (fun r => r.monthly_cost)).sum
  { annual_mileage := annual_mileage
    total_cost := total_costs
    cost_per_mile := if 0 < annual_mileage then total_costs / annual_mileage else 0 }

/-- The fixed category vocabulary (src/app3.py lines 428-441). -/
def categories : List (String × List String) :=
  [("E N G I N E",
    ["Oil & Filter Change", "Air Filter Change", "Fuel Filter Change",
     "Transmission Fluid", "Engine Coolant", "Hose Replacement",
     "Belt Replacement", "Battery Replacement"]),
   ("C H A S S I S",
    ["Tire Repair / Replacement", "Tire Rotation / Balance",
     "Tire Alignment", "Brake Pad Replacement"]),
   ("M I S C",
    ["Windshield Wiper Repl.", "Bulb Replacement", "Other"])]

/-- `all_types` (src/app3.py line 442): the flattened vocabulary. -/
def all_types : List String :=
  (categories.map (fun c => c.2)).flatten

/-- The inner loop of the breakdown (src/app3.py lines 449-454): scan the
month intervals in sorted order and stop at the first one containing `d`. -/
def firstMonthContaining (months : List Date) (d : Date) : Option Date :=
  months.find? (fun monthStart => dateInMonth monthStart d)

/-- One iteration of the breakdown loop (src/app3.py lines 447-454): if the
log's description is in the vocabulary and some sorted month interval
contains its date, add `total_cost` to the (description, first such month)
cell; otherwise leave the table unchanged. -/
def addLogToTable (months : List Date) (t : String → Date → ℚ)
    (l : MaintenanceLogEntry) : String → Date → ℚ :=
  if l.description ∈ all_types then
    match firstMonthContaining months l.date with
    | some monthStart =>
        fun desc m =>
          if desc = l.description ∧ m = monthStart then
            t desc m + l.total_cost
          else t desc m
    | none => t
  else t

/-- `computeCategoryBreakdown` (src/app3.py lines 443-454): start from the
all-zero (description, month) table and fold the breakdown loop over the
log entries; the month columns are the sorted month start dates. -/
def computeCategoryBreakdown (ms : List MonthlyMileageEntry)
    (logs : List MaintenanceLogEntry) : String → Date → ℚ :=
  logs.foldl (addLogToTable ((sortMileage ms).map (fun m => m.month_date)))
    (fun _ _ => 0)

/-- src/app3.py line 443 (`if not monthly_df.empty:`): the category
breakdown is computed only when there is at least one mileage entry;
with none, no table is produced at all. -/
def categoryBreakdownOpt (ms : List MonthlyMileageEntry)
    (logs : List MaintenanceLogEntry) : Option (String → Date → ℚ) :=
  if ms.isEmpty then none else some (computeCategoryBreakdown ms logs)

/-- A row of the `trucks` table (src/app3.py lines 20-38). -/
structure TruckRow where
  id : Nat
  make : String
  model : String
  year : Nat
  plate_reg : String
  vin : String
  status : String
  gas_type : String
  tank_capacity : String
  operator : String
  location : String
  purchase_date : Option Date
  exp_date : Option Date
  next_service_due : Option Date
  mileage : ℚ
deriving DecidableEq, Repr

/-- A stored `maintenance_logs` row: surrogate id, owning truck id, payload. -/
structure LogRow where
  id : Nat
  truck_id : Nat
  entry : MaintenanceLogEntry
deriving DecidableEq, Repr

/-- A stored `monthly_mileages` row: surrogate id, owning truck id, payload. -/
structure MileageRow where
  id : Nat
  truck_id : Nat
  entry : MonthlyMileageEntry
deriving DecidableEq, Repr

/-- The three tables of src/app3.py's database. -/
structure FleetDB where
  trucks : List TruckRow
  maintenance_logs : List LogRow
  monthly_mileages : List MileageRow
deriving DecidableEq, Repr

/-- `delete_truck` (src/app3.py lines 101-106): executes the single
statement `DELETE FROM trucks WHERE id=?` and nothing else. The schema
(src/app3.py lines 39-66) declares `ON DELETE CASCADE` foreign keys, but
Python's sqlite3 leaves foreign-key enforcement OFF unless a connection
runs `PRAGMA foreign_keys=ON`, and no connection in the source ever does,
so the dependent `maintenance_logs` and `monthly_mileages` rows are not
touched by this operation. -/
def delete_truck (db : FleetDB) (tid : Nat) : FleetDB :=
  { db with trucks := db.trucks.filter (fun t => t.id != tid) }

/-- Modelled from the spec: the cascading delete the spec describes
("deleted removes dependent logs and mileage-ledger rows"), i.e. the
behavior the declared `ON DELETE CASCADE` clauses would produce were
foreign-key enforcement enabled; missing from the code of src/app3.py. -/
def delete_truck_cascade (db : FleetDB) (tid : Nat) : FleetDB :=
  { trucks := db.trucks.filter (fun t => t.id != tid)
    maintenance_logs := db.maintenance_logs.filter (fun l => l.truck_id != tid)
    monthly_mileages := db.monthly_mileages.filter (fun m => m.truck_id != tid) }

/-- The add-log form (src/app3.py lines 488-506): the stored row's
`total_cost` is `material_cost + labor_cost` (line 502), computed from the
two cost inputs; no independent total is accepted. -/
def addLogFromForm (log_date : Date) (description : String) (odometer : ℚ)
    (service_provider mechanic part_no : String) (log_next_due : Option Date)
    (material_cost labor_cost : ℚ) (warranty : String) : MaintenanceLogEntry :=
  { date := log_date
    description := description
    odometer := odometer
    service_provider := service_provider
    mechanic := mechanic
    part_no := part_no
    next_service_due := log_next_due
    material_cost := material_cost
    labor_cost := labor_cost
    warranty := warranty
    total_cost := material_cost + labor_cost }

/-- Saving an edited log row (src/app3.py lines 549-554): the stored total
is recomputed as `total = r['material_cost'] + r['labor_cost']` from the
row's current operands; the row's previous `total_cost` value is ignored. -/
def saveEditedLog (r : MaintenanceLogEntry) : MaintenanceLogEntry :=
  { r with total_cost := r.material_cost + r.labor_cost }

/-- src/app3.py lines 507-508: after adding a log, `if odometer >
row['mileage']` the truck's stored mileage is raised to the odometer
reading; otherwise it is left unchanged. -/
def applyLogOdometer (current odometer : ℚ) : ℚ :=
  if current < odometer then odometer else current

/-- `update_truck` (src/app3.py lines 91-99, invoked from the Manage
Trucks editor at line 323): overwrites every non-id column of the truck
row, including `mileage`, with the supplied values. -/
def update_truck (t : TruckRow) (make model : String) (year : Nat)
    (plate_reg vin status gas_type tank_capacity oper location : String)
    (purchase_date exp_date next_service_due : Option Date)
    (mileage : ℚ) : TruckRow :=
  { id := t.id
    make := make
    model := model
    year := year
    plate_reg := plate_reg
    vin := vin
    status := status
    gas_type := gas_type
    tank_capacity := tank_capacity
    operator := oper
    location := location
    purchase_date := purchase_date
    exp_date := exp_date
    next_service_due := next_service_due
    mileage := mileage }

/-- SQL `SUM(col)` over a selected column: NULL on an empty row set,
otherwise the sum. -/
def sqlSum (xs : List ℚ) : Option ℚ :=
  if xs.isEmpty then none else some xs.sum

/-- Python's `value or 0.0` applied to a nullable SQL aggregate
(src/app3.py line 149, src/app2.py line 91): both `None` and a falsy zero
sum become `0.0`. -/
def pyOrZero (x : Option ℚ) : ℚ :=
  match x with
  | none => 0
  | some v => if v = 0 then 0 else v

/-- `get_total_expenses` (src/app3.py lines 145-151):
`SELECT SUM(total_cost) FROM maintenance_logs WHERE truck_id=?`,
then `fetchone()[0] or 0.0`. -/
def get_total_expenses (db : FleetDB) (tid : Nat) : ℚ :=
  pyOrZero (sqlSum ((db.maintenance_logs.filter (fun l => l.truck_id == tid)).map
    (fun l => l.entry.total_cost)))

/-- A row of the `expenses` table of src/app2.py (lines 27-36). -/
structure ExpenseRow where
  id : Nat
  truck_id : Nat
  date : Date
  description : String
  cost : ℚ
deriving DecidableEq, Repr

/-- `get_total_expenses` of src/app2.py (lines 87-93):
`SELECT SUM(cost) FROM expenses WHERE truck_id=?`, then
`fetchone()[0] or 0.0` (the final `float()` conversion is the identity
on the modelled rationals). -/
def get_total_expenses_app2 (expenses : List ExpenseRow) (tid : Nat) : ℚ :=
  pyOrZero (sqlSum ((expenses.filter (fun e => e.truck_id == tid)).map
    (fun e => e.cost)))

/-- Disjointness of the half-open month intervals of two month start
dates, phrased decidably: one interval ends no later than the other
begins. -/
def monthsDisjoint (a b : Date) : Bool :=
  dateLE (addMonth a) b || dateLE (addMonth b) a

/-! Order facts about the lexicographic date comparisons. -/

theorem dateLE_refl (a : Date) : dateLE a a = true := by
  simp [dateLE]

theorem dateLE_trans {a b c : Date} (h1 : dateLE a b = true)
    (h2 : dateLE b c = true) : dateLE a c = true := by
  simp only [dateLE, Bool.or_eq_true, Bool.and_eq_true, decide_eq_true_eq] at *
  omega

theorem dateLE_total (a b : Date) : (dateLE a b || dateLE b a) = true := by
  simp only [dateLE, Bool.or_eq_true, Bool.and_eq_true, decide_eq_true_eq]
  omega

theorem dateLE_of_dateLT {a b : Date} (h : dateLT a b = true) :
    dateLE a b = true := by
  simp only [dateLE, dateLT, Bool.or_eq_true, Bool.and_eq_true,
    decide_eq_true_eq] at *
  omega

theorem dateLT_of_dateLT_of_dateLE {a b c : Date} (h1 : dateLT a b = true)
    (h2 : dateLE b c = true) : dateLT a c = true := by
  simp only [dateLE, dateLT, Bool.or_eq_true, Bool.and_eq_true,
    decide_eq_true_eq] at *
  omega

theorem not_dateLE_of_dateLT {a b : Date} (h : dateLT a b = true) :
    dateLE b a = false := by
  simp only [dateLE, dateLT, Bool.or_eq_true, Bool.and_eq_true,
    decide_eq_true_eq, Bool.eq_false_iff, ne_eq, not_or, not_and, not_lt,
    not_le] at *
  omega

theorem dateLT_addMonth (d : Date) : dateLT d (addMonth d) = true := by
  by_cases h : d.month = 12
  · simp [dateLT, addMonth, h]
  · simp [dateLT, addMonth, h]

/-- A date inside a month interval cannot lie inside a disjoint one. -/
theorem not_dateInMonth_of_disjoint {a b d : Date}
    (hdis : monthsDisjoint a b = true) (ha : dateInMonth a d = true) :
    dateInMonth b d = false := by
  rcases Bool.or_eq_true _ _ |>.mp hdis with h | h
  · -- the interval of `a` ends no later than `b` begins: d < addMonth a ≤ b
    rcases Bool.and_eq_true _ _ |>.mp ha with ⟨-, hlt⟩
    have hdb : dateLT d b = true := dateLT_of_dateLT_of_dateLE hlt h
    have := not_dateLE_of_dateLT hdb
    simp [dateInMonth, this]
  · -- the interval of `b` ends no later than `a` begins: any d in [b, addMonth b)
    -- satisfies d < addMonth b ≤ a ≤ d, impossible
    rcases Bool.and_eq_true _ _ |>.mp ha with ⟨hle, -⟩
    cases hinb : dateInMonth b d with
    | false => rfl
    | true =>
        rcases Bool.and_eq_true _ _ |>.mp hinb with ⟨-, hlt'⟩
        have hda : dateLT d a = true := dateLT_of_dateLT_of_dateLE hlt' h
        have := not_dateLE_of_dateLT hda
        rw [this] at hle
        cases hle

theorem monthsDisjoint_symm {a b : Date} (h : monthsDisjoint a b = true) :
    monthsDisjoint b a = true := by
  simp only [monthsDisjoint, Bool.or_eq_true] at *
  exact h.symm

instance : IsTotal MonthlyMileageEntry mileageLE :=
  ⟨fun a b => by
    have h := dateLE_total a.month_date b.month_date
    rcases Bool.or_eq_true _ _ |>.mp h with h' | h'
    · exact Or.inl h'
    · exact Or.inr h'⟩

instance : IsTrans MonthlyMileageEntry mileageLE :=
  ⟨fun _ _ _ h1 h2 => dateLE_trans h1 h2⟩

/-- Sorting the mileage entries yields a list pairwise ordered by
month start date. -/
theorem sortMileage_sorted (ms : List MonthlyMileageEntry) :
    List.Pairwise (fun a b => dateLE a.month_date b.month_date = true)
      (sortMileage ms) :=
  List.sorted_insertionSort mileageLE ms

theorem sortMileage_perm (ms : List MonthlyMileageEntry) :
    (sortMileage ms).Perm ms :=
  List.perm_insertionSort mileageLE ms

/-- A list whose elements pairwise never satisfy a predicate together has
at most one element satisfying it. -/
theorem length_filter_le_one_of_pairwise {α : Type _} {q : α → Bool}
    {l : List α} (h : List.Pairwise (fun a b => ¬(q a = true ∧ q b = true)) l) :
    (l.filter q).length ≤ 1 := by
  induction l with
  | nil => simp
  | cons a t ih =>
      rw [List.pairwise_cons] at h
      obtain ⟨hhead, htail⟩ := h
      by_cases hq : q a = true
      · have htnil : t.filter q = [] := by
          apply List.filter_eq_nil_iff.mpr
          intro b hb hqb
          exact hhead b hb ⟨hq, hqb⟩
        simp [List.filter_cons, hq, htnil]
      · simp only [List.filter_cons, hq, if_false]
        exact ih htail

theorem dateLT_irrefl (a : Date) : dateLT a a = false := by
  simp [dateLT]

/-! Concrete data used to witness the theorems: the spec's example
scenario (two months of mileage, two maintenance logs) and small stores. -/

/-- A log entry with the given date, description and total cost; the
remaining columns are immaterial defaults. -/
def mkLog (d : Date) (desc : String) (c : ℚ) : MaintenanceLogEntry :=
  ⟨d, desc, 0, "", "", "", none, 0, 0, "", c⟩

def msExample : List MonthlyMileageEntry :=
  [⟨⟨2024, 1, 1⟩, 1000, 1500⟩, ⟨⟨2024, 2, 1⟩, 1500, 2200⟩]

def logsExample : List MaintenanceLogEntry :=
  [mkLog ⟨2024, 1, 15⟩ "Oil & Filter Change" 40,
   mkLog ⟨2024, 2, 1⟩ "Car Wash" 60]

/-- C1: `computeMonthlySummary` returns one output row per input mileage
entry (same count, and the rows project back to a permutation of the
input entries), sorted ascending by month start date, where each row's
`monthly_mileage` is `ending_mileage - starting_mileage` exactly (never
clamped) and each row's `monthly_cost` is the sum of `total_cost` over the
log entries whose date `d` satisfies `month_start <= d < month_start + 1
calendar month`. -/
theorem computeMonthlySummary_spec (ms : List MonthlyMileageEntry)
    (logs : List MaintenanceLogEntry) :
    (computeMonthlySummary ms logs).length = ms.length
    ∧ List.Pairwise (fun a b => dateLE a.month_date b.month_date = true)
        (computeMonthlySummary ms logs)
    ∧ ((computeMonthlySummary ms logs).map
        (fun r => (⟨r.month_date, r.starting_mileage, r.ending_mileage⟩ :
          MonthlyMileageEntry))).Perm ms
    ∧ ∀ r ∈ computeMonthlySummary ms logs,
        r.monthly_mileage = r.ending_mileage - r.starting_mileage
        ∧ r.monthly_cost =
            ((logs.filter (fun l => dateLE r.month_date l.date &&
                dateLT l.date (addMonth r.month_date))).map
              (fun l => l.total_cost)).sum := by
  refine ⟨?_, ?_, ?_, ?_⟩
  · rw [computeMonthlySummary, List.length_map]
    exact List.length_insertionSort mileageLE ms
  · rw [computeMonthlySummary, List.pairwise_map]
    exact sortMileage_sorted ms
  · have hid : (computeMonthlySummary ms logs).map
        (fun r => (⟨r.month_date, r.starting_mileage, r.ending_mileage⟩ :
          MonthlyMileageEntry)) = sortMileage ms := by
      rw [computeMonthlySummary, List.map_map]
      exact List.map_id _
    rw [hid]
    exact sortMileage_perm ms
  · intro r hr
    rw [computeMonthlySummary, List.mem_map] at hr
    obtain ⟨m, _, rfl⟩ := hr
    exact ⟨rfl, rfl⟩

/-- Witness for C1 on the spec's example scenario: the January row is a
row of the output and its cost is the interval sum of the logs. -/
theorem computeMonthlySummary_spec_example :
    (computeMonthlySummary msExample logsExample).length = msExample.length
    ∧ (⟨⟨2024, 1, 1⟩, 1000, 1500, 500, 40⟩ : SummaryRow).monthly_cost =
        ((logsExample.filter (fun l => dateLE (⟨2024, 1, 1⟩ : Date) l.date &&
            dateLT l.date (addMonth (⟨2024, 1, 1⟩ : Date)))).map
          (fun l => l.total_cost)).sum := by
  have h := computeMonthlySummary_spec msExample logsExample
  have hmem : (⟨⟨2024, 1, 1⟩, 1000, 1500, 500, 40⟩ : SummaryRow) ∈
      computeMonthlySummary msExample logsExample := by
    norm_num [computeMonthlySummary, sortMileage, List.insertionSort,
      List.orderedInsert, mileageLE, monthCost, dateInMonth, dateLE, dateLT,
      addMonth, daysInMonth, isLeap, msExample, logsExample, mkLog]
  exact ⟨h.1, (h.2.2.2 _ hmem).2⟩

/-- C3: `computeAnnualMetrics` returns the sum of the monthly mileages,
the sum of the monthly costs, and their quotient when the annual mileage
is positive and `0.0` otherwise; it is total (no error), and on the empty
summary it returns all-zero metrics. -/
theorem computeAnnualMetrics_spec (s : List SummaryRow) :
    (computeAnnualMetrics s).annual_mileage =
        (s.map (fun r => r.monthly_mileage)).sum
    ∧ (computeAnnualMetrics s).total_cost =
        (s.map (fun r => r.monthly_cost)).sum
    ∧ (0 < (computeAnnualMetrics s).annual_mileage →
        (computeAnnualMetrics s).cost_per_mile =
          (computeAnnualMetrics s).total_cost /
            (computeAnnualMetrics s).annual_mileage)
    ∧ ((computeAnnualMetrics s).annual_mileage ≤ 0 →
        (computeAnnualMetrics s).cost_per_mile = 0)
    ∧ computeAnnualMetrics [] = ⟨0, 0, 0⟩ := by
  refine ⟨rfl, rfl, ?_, ?_, ?_⟩
  · intro h
    have h' : 0 < (s.map (fun r => r.monthly_mileage)).sum := h
    show (if 0 < (s.map (fun r => r.monthly_mileage)).sum then
        (s.map (fun r => r.monthly_cost)).sum /
          (s.map (fun r => r.monthly_mileage)).sum else 0) = _
    rw [if_pos h']
    rfl
  · intro h
    have h' : ¬(0 < (s.map (fun r => r.monthly_mileage)).sum) := not_lt.mpr h
    show (if 0 < (s.map (fun r => r.monthly_mileage)).sum then
        (s.map (fun r => r.monthly_cost)).sum /
          (s.map (fun r => r.monthly_mileage)).sum else 0) = 0
    rw [if_neg h']
  · norm_num [computeAnnualMetrics]

/-- Witness for C3: a one-row summary with zero mileage and nonzero cost
has well-defined metrics with `cost_per_mile = 0`. -/
theorem computeAnnualMetrics_spec_example :
    (computeAnnualMetrics [⟨⟨2024, 1, 1⟩, 1000, 1000, 0, 75⟩]).cost_per_mile = 0 := by
  refine (computeAnnualMetrics_spec [⟨⟨2024, 1, 1⟩, 1000, 1000, 0, 75⟩]).2.2.2.1 ?_
  norm_num [computeAnnualMetrics]

/-- C6: with no mileage entries the monthly summary is empty (no error),
and the category breakdown is skipped entirely — no table value is
produced at all — while any non-empty mileage list does produce a table. -/
theorem emptyMileage_spec (logs : List MaintenanceLogEntry) :
    computeMonthlySummary [] logs = []
    ∧ categoryBreakdownOpt [] logs = none
    ∧ ∀ ms : List MonthlyMileageEntry, ms ≠ [] →
        categoryBreakdownOpt ms logs = some (computeCategoryBreakdown ms logs) := by
  refine ⟨rfl, rfl, ?_⟩
  intro ms hms
  rw [categoryBreakdownOpt, if_neg]
  simp [hms]

/-- Witness for C6: a singleton mileage list yields a (present) table. -/
theorem emptyMileage_spec_example :
    categoryBreakdownOpt [⟨⟨2024, 1, 1⟩, 1000, 1500⟩] [] =
      some (computeCategoryBreakdown [⟨⟨2024, 1, 1⟩, 1000, 1500⟩] []) :=
  (emptyMileage_spec []).2.2 [⟨⟨2024, 1, 1⟩, 1000, 1500⟩] (by simp)

/-- C2: appending a log entry to the input changes the category-breakdown
table by adding its `total_cost` to exactly the (its description, first
containing sorted month interval) cell when its description is in the
fixed vocabulary and some interval contains its date, and by nothing at
all otherwise — in particular a log whose description is outside the
vocabulary contributes nothing to any cell; yet any month interval
containing its date still counts its `total_cost` in that month's
`monthly_cost` total. -/
theorem computeCategoryBreakdown_spec (ms : List MonthlyMileageEntry)
    (logs : List MaintenanceLogEntry) (l : MaintenanceLogEntry)
    (desc : String) (m : Date) :
    computeCategoryBreakdown ms (logs ++ [l]) desc m
      = computeCategoryBreakdown ms logs desc m
        + (if l.description ∈ all_types then
             match firstMonthContaining
                 ((sortMileage ms).map (fun e => e.month_date)) l.date with
             | some monthStart =>
                 if desc = l.description ∧ m = monthStart then l.total_cost else 0
             | none => 0
           else 0)
    ∧ (∀ monthStart : Date, dateInMonth monthStart l.date = true →
        monthCost monthStart (logs ++ [l]) = monthCost monthStart logs + l.total_cost) := by
  constructor
  · rw [computeCategoryBreakdown, computeCategoryBreakdown, List.foldl_append,
      List.foldl_cons, List.foldl_nil]
    rw [addLogToTable]
    by_cases hv : l.description ∈ all_types
    · rw [if_pos hv]
      cases hfm : firstMonthContaining
          ((sortMileage ms).map (fun e => e.month_date)) l.date with
      | none => simp [hv, hfm]
      | some monthStart =>
          by_cases hc : desc = l.description ∧ m = monthStart
          · simp [hv, hfm, hc]
          · simp [hv, hfm, hc]
    · simp [hv]
  · intro monthStart hs
    rw [monthCost, monthCost, List.filter_append, List.map_append,
      List.sum_append]
    simp [List.filter_cons, hs]

/-- Witness for C2: a log with the out-of-vocabulary description
`"Car Wash"` dated 2024-02-01 leaves the whole breakdown table unchanged
(shown at the February "Other" cell) while February's `monthly_cost`
still counts its cost. -/
theorem computeCategoryBreakdown_spec_example :
    computeCategoryBreakdown msExample
        ([mkLog ⟨2024, 1, 15⟩ "Oil & Filter Change" 40] ++
          [mkLog ⟨2024, 2, 1⟩ "Car Wash" 60]) "Other" ⟨2024, 2, 1⟩
      = computeCategoryBreakdown msExample
          [mkLog ⟨2024, 1, 15⟩ "Oil & Filter Change" 40] "Other" ⟨2024, 2, 1⟩
        + 0
    ∧ monthCost ⟨2024, 2, 1⟩
          ([mkLog ⟨2024, 1, 15⟩ "Oil & Filter Change" 40] ++
            [mkLog ⟨2024, 2, 1⟩ "Car Wash" 60])
        = monthCost ⟨2024, 2, 1⟩ [mkLog ⟨2024, 1, 15⟩ "Oil & Filter Change" 40]
          + (mkLog ⟨2024, 2, 1⟩ "Car Wash" 60).total_cost := by
  have h := computeCategoryBreakdown_spec msExample
    [mkLog ⟨2024, 1, 15⟩ "Oil & Filter Change" 40]
    (mkLog ⟨2024, 2, 1⟩ "Car Wash" 60) "Other" ⟨2024, 2, 1⟩
  constructor
  · have h1 := h.1
    have hv : (mkLog ⟨2024, 2, 1⟩ "Car Wash" 60).description ∉ all_types := by
      decide
    rw [if_neg hv] at h1
    exact h1
  · exact h.2 ⟨2024, 2, 1⟩ (by norm_num [mkLog, dateInMonth, dateLE, dateLT,
      addMonth, daysInMonth, isLeap])

/-! C4: the double-counting counterexample and the disjoint-interval
amendment. -/

/-- Two mileage entries for the same calendar month: their month
intervals coincide (overlap). -/
def msOverlap : List MonthlyMileageEntry :=
  [⟨⟨2024, 1, 1⟩, 0, 10⟩, ⟨⟨2024, 1, 1⟩, 10, 20⟩]

/-- A single log entry dated inside that shared month. -/
def logOverlap : MaintenanceLogEntry := mkLog ⟨2024, 1, 15⟩ "Other" 5

/-- Counterexample to C4 as stated: with overlapping month intervals a
single log of cost 5 is counted in the `monthly_cost` of two distinct
rows, and the summary's total cost is 10 — the log is double-counted. -/
theorem overlappingMonths_doubleCount :
    ((computeMonthlySummary msOverlap [logOverlap]).filter
        (fun r => dateInMonth r.month_date logOverlap.date)).length = 2
    ∧ (computeMonthlySummary msOverlap [logOverlap]).map (fun r => r.monthly_cost)
        = [5, 5]
    ∧ (computeAnnualMetrics (computeMonthlySummary msOverlap [logOverlap])).total_cost
        = 10 := by
  refine ⟨?_, ?_, ?_⟩ <;>
    norm_num [computeAnnualMetrics, computeMonthlySummary, sortMileage,
      List.insertionSort, List.orderedInsert, mileageLE, monthCost, dateInMonth,
      dateLE, dateLT, addMonth, daysInMonth, isLeap, msOverlap, logOverlap,
      mkLog, List.filter]

/-- C4 amended: when the mileage entries' month intervals are pairwise
disjoint, every date — hence every log entry — lies in the interval of at
most one summary row, so no log entry's cost is counted in more than one
row's `monthly_cost`. -/
theorem monthlyCost_at_most_one_row (ms : List MonthlyMileageEntry)
    (logs : List MaintenanceLogEntry)
    (h : List.Pairwise (fun a b => monthsDisjoint a.month_date b.month_date = true) ms)
    (d : Date) :
    ((computeMonthlySummary ms logs).filter
      (fun r => dateInMonth r.month_date d)).length ≤ 1 := by
  rw [computeMonthlySummary, List.filter_map, List.length_map]
  apply length_filter_le_one_of_pairwise
  have hsorted : List.Pairwise
      (fun a b => monthsDisjoint a.month_date b.month_date = true)
      (sortMileage ms) :=
    ((sortMileage_perm ms).pairwise_iff (fun hxy => monthsDisjoint_symm hxy)).mpr h
  refine hsorted.imp ?_
  intro a b hab hcontra
  obtain ⟨ha, hb⟩ := hcontra
  simp only [Function.comp] at ha hb
  have := not_dateInMonth_of_disjoint hab ha
  rw [this] at hb
  cases hb

/-- Witness for the amended C4: with the two disjoint months of the
example data, no date is in more than one row's interval. -/
theorem monthlyCost_at_most_one_row_example :
    ((computeMonthlySummary msExample logsExample).filter
      (fun r => dateInMonth r.month_date (⟨2024, 1, 15⟩ : Date))).length ≤ 1 :=
  monthlyCost_at_most_one_row msExample logsExample
    (by decide) ⟨2024, 1, 15⟩

/-- C5: for two contiguous month entries — the first's interval end is the
second's month start — a log dated exactly on the shared boundary is in
the second month's interval and not the first's; in the monthly summary
its cost lands in the second row only, and in the category breakdown the
first containing interval is the second month, so (for a vocabulary
description) its cost is added to that month's cell only. -/
theorem boundaryLog_nextMonth (m1 m2 : MonthlyMileageEntry)
    (l : MaintenanceLogEntry) (logs : List MaintenanceLogEntry)
    (hb : addMonth m1.month_date = m2.month_date)
    (hd : l.date = m2.month_date) :
    dateInMonth m1.month_date l.date = false
    ∧ dateInMonth m2.month_date l.date = true
    ∧ (computeMonthlySummary [m1, m2] (logs ++ [l])).map (fun r => r.monthly_cost)
        = [monthCost m1.month_date logs, monthCost m2.month_date logs + l.total_cost]
    ∧ firstMonthContaining [m1.month_date, m2.month_date] l.date
        = some m2.month_date
    ∧ (l.description ∈ all_types → ∀ desc m,
        computeCategoryBreakdown [m1, m2] (logs ++ [l]) desc m
          = computeCategoryBreakdown [m1, m2] logs desc m
            + (if desc = l.description ∧ m = m2.month_date then l.total_cost
               else 0)) := by
  have hni : dateInMonth m1.month_date l.date = false := by
    rw [dateInMonth, hd, ← hb, dateLT_irrefl, Bool.and_false]
  have hin : dateInMonth m2.month_date l.date = true := by
    rw [dateInMonth, hd, dateLE_refl, dateLT_addMonth, Bool.and_true]
  have hle12 : mileageLE m1 m2 := by
    rw [mileageLE, ← hb]
    exact dateLE_of_dateLT (dateLT_addMonth m1.month_date)
  have hsort : sortMileage [m1, m2] = [m1, m2] := by
    rw [sortMileage, List.insertionSort, List.insertionSort, List.insertionSort,
      List.orderedInsert, List.orderedInsert]
    rw [if_pos hle12]
  have hfind : firstMonthContaining [m1.month_date, m2.month_date] l.date
      = some m2.month_date := by
    rw [firstMonthContaining, List.find?, hni, List.find?, hin]
  refine ⟨hni, hin, ?_, hfind, ?_⟩
  · rw [computeMonthlySummary, hsort]
    have hc1 : monthCost m1.month_date (logs ++ [l]) = monthCost m1.month_date logs := by
      rw [monthCost, monthCost, List.filter_append, List.map_append, List.sum_append]
      simp [List.filter_cons, hni]
    have hc2 : monthCost m2.month_date (logs ++ [l])
        = monthCost m2.month_date logs + l.total_cost := by
      rw [monthCost, monthCost, List.filter_append, List.map_append, List.sum_append]
      simp [List.filter_cons, hin]
    simp [hc1, hc2]
  · intro hv desc m
    rw [computeCategoryBreakdown, computeCategoryBreakdown, List.foldl_append,
      List.foldl_cons, List.foldl_nil, addLogToTable, if_pos hv]
    have hmonths : (sortMileage [m1, m2]).map (fun e => e.month_date)
        = [m1.month_date, m2.month_date] := by
      rw [hsort]
      rfl
    rw [hmonths, hfind]
    by_cases hc : desc = l.description ∧ m = m2.month_date
    · simp [hc]
    · simp [hc]

/-- Witness for C5: January and February 2024 are contiguous, and an
"Other" log of cost 60 dated on the boundary 2024-02-01 lands in the
February row and the February "Other" cell only. -/
theorem boundaryLog_nextMonth_example :
    dateInMonth (⟨2024, 1, 1⟩ : Date) (⟨2024, 2, 1⟩ : Date) = false
    ∧ dateInMonth (⟨2024, 2, 1⟩ : Date) (⟨2024, 2, 1⟩ : Date) = true
    ∧ (computeMonthlySummary
          [⟨⟨2024, 1, 1⟩, 1000, 1500⟩, ⟨⟨2024, 2, 1⟩, 1500, 2200⟩]
          ([] ++ [mkLog ⟨2024, 2, 1⟩ "Other" 60])).map (fun r => r.monthly_cost)
        = [monthCost ⟨2024, 1, 1⟩ [], monthCost ⟨2024, 2, 1⟩ [] + 60]
    ∧ computeCategoryBreakdown
          [⟨⟨2024, 1, 1⟩, 1000, 1500⟩, ⟨⟨2024, 2, 1⟩, 1500, 2200⟩]
          ([] ++ [mkLog ⟨2024, 2, 1⟩ "Other" 60]) "Other" ⟨2024, 2, 1⟩
        = computeCategoryBreakdown
            [⟨⟨2024, 1, 1⟩, 1000, 1500⟩, ⟨⟨2024, 2, 1⟩, 1500, 2200⟩]
            [] "Other" ⟨2024, 2, 1⟩
          + (if "Other" = (mkLog ⟨2024, 2, 1⟩ "Other" 60).description ∧
                (⟨2024, 2, 1⟩ : Date) = (⟨2024, 2, 1⟩ : Date)
             then (mkLog ⟨2024, 2, 1⟩ "Other" 60).total_cost else 0) := by
  have h := boundaryLog_nextMonth
    ⟨⟨2024, 1, 1⟩, 1000, 1500⟩ ⟨⟨2024, 2, 1⟩, 1500, 2200⟩
    (mkLog ⟨2024, 2, 1⟩ "Other" 60) []
    (by decide) (by decide)
  exact ⟨h.1, h.2.1, h.2.2.1, h.2.2.2.2 (by decide) "Other" ⟨2024, 2, 1⟩⟩

/-! C7: cascade delete. Concrete store with two trucks, each owning rows. -/

/-- A truck row with the given id and mileage; descriptive columns are
representative constants. -/
def truckRow (i : Nat) (mil : ℚ) : TruckRow :=
  ⟨i, "Ford", "Transit-350 Cargo", 2021, "FLT012", "VIN1", "Active",
   "Regular", "25.1 gal", "John Smith", "Atlanta", none, none, none, mil⟩

def dbExample : FleetDB :=
  { trucks := [truckRow 1 130000, truckRow 2 5000]
    maintenance_logs :=
      [⟨1, 1, mkLog ⟨2021, 6, 1⟩ "Oil & Filter Change" 35⟩,
       ⟨2, 2, mkLog ⟨2021, 6, 1⟩ "Air Filter Change" 15⟩]
    monthly_mileages := [⟨1, 1, ⟨⟨2021, 6, 1⟩, 64000, 65000⟩⟩] }

/-- C7 (code bug): `delete_truck` removes the truck row but leaves the
deleted vehicle's maintenance-log row and monthly-mileage row in the
store, contradicting the claimed cascade; the spec-modelled cascading
delete removes exactly the dependent rows and keeps the other vehicle's
rows unchanged. -/
theorem delete_truck_leaves_dependents :
    (delete_truck dbExample 1).trucks.filter (fun t => t.id == 1) = []
    ∧ (delete_truck dbExample 1).maintenance_logs.filter (fun l => l.truck_id == 1)
        = [⟨1, 1, mkLog ⟨2021, 6, 1⟩ "Oil & Filter Change" 35⟩]
    ∧ (delete_truck dbExample 1).monthly_mileages.filter (fun m => m.truck_id == 1)
        = [⟨1, 1, ⟨⟨2021, 6, 1⟩, 64000, 65000⟩⟩]
    ∧ (delete_truck_cascade dbExample 1).maintenance_logs.filter
        (fun l => l.truck_id == 1) = []
    ∧ (delete_truck_cascade dbExample 1).monthly_mileages.filter
        (fun m => m.truck_id == 1) = []
    ∧ (delete_truck_cascade dbExample 1).maintenance_logs
        = [⟨2, 2, mkLog ⟨2021, 6, 1⟩ "Air Filter Change" 15⟩] := by
  refine ⟨?_, ?_, ?_, ?_, ?_, ?_⟩ <;>
    simp [delete_truck, delete_truck_cascade, dbExample, truckRow, mkLog,
      List.filter]

/-- C8: both write paths for a maintenance log store
`total_cost = material_cost + labor_cost`, recomputed from the current
operands; the edited row's previous `total_cost` has no effect on what is
stored. -/
theorem total_cost_invariant (log_date : Date) (description : String)
    (odometer : ℚ) (sp mech pn : String) (nd : Option Date)
    (material labor : ℚ) (w : String) (r : MaintenanceLogEntry) (t : ℚ) :
    (addLogFromForm log_date description odometer sp mech pn nd material labor w).total_cost
        = material + labor
    ∧ (saveEditedLog r).total_cost = r.material_cost + r.labor_cost
    ∧ saveEditedLog { r with total_cost := t } = saveEditedLog r :=
  ⟨rfl, rfl, rfl⟩

/-- Counterexample to C9's final clause ("no operation lowers
current_mileage"): the truck-edit operation stores whatever mileage it is
given, so editing a truck whose mileage is 100 down to 50 lowers it. -/
theorem update_truck_lowers_mileage :
    (update_truck (truckRow 1 100) "Ford" "Transit-350 Cargo" 2021 "FLT012"
        "VIN1" "Active" "Regular" "25.1 gal" "John Smith" "Atlanta"
        none none none 50).mileage < (truckRow 1 100).mileage := by
  norm_num [update_truck, truckRow]

/-- C9 amended: the add-log path never lowers the stored mileage — it
raises it to the log's odometer reading when that is higher and leaves it
unchanged otherwise — but monotonicity holds only for this path, not for
the unconstrained truck-edit operation. -/
theorem addLog_mileage_monotone (current odometer : ℚ) :
    (current < odometer → applyLogOdometer current odometer = odometer)
    ∧ (odometer ≤ current → applyLogOdometer current odometer = current)
    ∧ current ≤ applyLogOdometer current odometer := by
  refine ⟨fun h => if_pos h, fun h => if_neg (not_lt.mpr h), ?_⟩
  by_cases h : current < odometer
  · rw [applyLogOdometer, if_pos h]
    exact le_of_lt h
  · rw [applyLogOdometer, if_neg h]

/-- Witness for the amended C9 at concrete mileages 100 (with odometer
readings 150 and 50). -/
theorem addLog_mileage_monotone_example :
    applyLogOdometer 100 150 = 150 ∧ applyLogOdometer 100 50 = 100 :=
  ⟨(addLog_mileage_monotone 100 150).1 (by norm_num),
   (addLog_mileage_monotone 100 50).2.1 (by norm_num)⟩

/-- The `SUM(...) or 0.0` idiom always equals the plain sum of the
selected column (the sum of no rows being 0). -/
theorem pyOrZero_sqlSum (xs : List ℚ) : pyOrZero (sqlSum xs) = xs.sum := by
  rw [sqlSum]
  by_cases h : xs.isEmpty
  · rw [if_pos h, pyOrZero]
    have hnil : xs = [] := by
      cases xs with
      | nil => rfl
      | cons a t => cases h
    rw [hnil]
    rfl
  · rw [if_neg h, pyOrZero]
    by_cases h0 : xs.sum = 0
    · rw [if_pos h0, h0]
    · rw [if_neg h0]

/-- C10: `get_total_expenses` (src/app3.py over maintenance logs,
src/app2.py over expenses) returns the sum of the vehicle's `total_cost`
(respectively `cost`) column, and returns `0` — a number, not a null and
not an error — when the vehicle has no rows. -/
theorem get_total_expenses_spec (db : FleetDB) (tid : Nat)
    (expenses : List ExpenseRow) :
    get_total_expenses db tid
        = ((db.maintenance_logs.filter (fun l => l.truck_id == tid)).map
            (fun l => l.entry.total_cost)).sum
    ∧ (db.maintenance_logs.filter (fun l => l.truck_id == tid) = [] →
        get_total_expenses db tid = 0)
    ∧ get_total_expenses_app2 expenses tid
        = ((expenses.filter (fun e => e.truck_id == tid)).map
            (fun e => e.cost)).sum
    ∧ (expenses.filter (fun e => e.truck_id == tid) = [] →
        get_total_expenses_app2 expenses tid = 0) := by
  refine ⟨pyOrZero_sqlSum _, ?_, pyOrZero_sqlSum _, ?_⟩
  · intro h
    rw [get_total_expenses, h]
    rfl
  · intro h
    rw [get_total_expenses_app2, h]
    rfl

/-- Witness for C10: on a store with no rows at all, both versions return
0 for vehicle 1. -/
theorem get_total_expenses_spec_example :
    get_total_expenses ⟨[], [], []⟩ 1 = 0 ∧ get_total_expenses_app2 [] 1 = 0 :=
  ⟨(get_total_expenses_spec ⟨[], [], []⟩ 1 []).2.1 rfl,
   (get_total_expenses_spec ⟨[], [], []⟩ 1 []).2.2.2 rfl⟩
